import Mathlib

/-!
Verification of the Emissions Estimator of the carbon-footprint-tracker
repository (src/main.py, the Flask `calculate` handler).

Modelling choices:
* Python floats are modelled as exact rationals (`ℚ`).  The reference
  coefficients 0.233, 2.31, 2.204 and all concrete scenario values are
  exactly representable, so every stated equality is exact here.
* `float(s)` on a string is modelled by `parseFloat`, a parser for finite
  decimal literals (optional surrounding whitespace, optional sign, digits
  with an optional decimal point, optional decimal exponent).  CPython
  extras outside this model: `inf` / `nan` literals, underscore digit
  separators and non-ASCII digits.
* Form fields (`request.form.get`) are `Option String`: `none` models an
  absent field (Python `None`).
* `float(None)` raises `TypeError`, `float("abc")` raises `ValueError`;
  both are modelled by `pyFloat` returning `Except PyError ℚ`.
* `logging.error` calls are modelled by the list of log records a call
  emits; `flash` + `redirect(url_for('index'))` is modelled by the
  `CalcResponse.redirectIndex` constructor carrying the flashed message.
* The module-level dictionaries are fields of an `AppState` threaded
  through the handler, so that (im)mutability of the tables is a provable
  statement rather than a by-construction triviality.
-/

/-- Severity levels of the `logging` module that this program uses. -/
inductive Severity where
  | debug
  | error
deriving DecidableEq, Repr

/-- One record emitted on a `logging.<severity>` call. -/
structure LogRecord where
  severity : Severity
  message : String
deriving DecidableEq, Repr

/-- The Python exceptions that `float(x)` can raise: `ValueError` for a
string that does not parse, `TypeError` for a non-string, non-number
argument such as `None`. -/
inductive PyError where
  | valueError
  | typeError
deriving DecidableEq, Repr

/-- The text CPython attaches to the exception raised by `float(None)` /
`float("...")`; it is interpolated into the catch-all log message.
(CPython quotes the type name; the quotes are elided here.) -/
def errorText : PyError → String
  | PyError.valueError => "could not convert string to float"
  | PyError.typeError => "float() argument must be a string or a real number, not NoneType"

/-- Python `str.strip()` with no argument: drop leading and trailing
whitespace. -/
def pyStrip (cs : List Char) : List Char :=
  ((cs.dropWhile Char.isWhitespace).reverse.dropWhile Char.isWhitespace).reverse

/-- Value of a list of decimal digit characters, most significant first. -/
def digitsVal (cs : List Char) : Nat :=
  cs.foldl (fun n c => 10 * n + (c.toNat - 48)) 0

/-- Consume one optional leading sign character, returning the sign and
the rest. -/
def parseSign : List Char → Int × List Char
  | '+' :: cs => (1, cs)
  | '-' :: cs => (-1, cs)
  | cs => (1, cs)

/-- Parse the part after the `e`/`E` of a decimal exponent and apply it to
`base`; fails if no digits follow or trailing characters remain. -/
def parseExpPart (base : ℚ) (cs : List Char) : Option ℚ :=
  let (esg, r) := parseSign cs
  let (ed, r2) := r.span Char.isDigit
  if ed.isEmpty || !r2.isEmpty then none
  else some (base * (10 : ℚ) ^ (esg * (digitsVal ed : Int)))

/-- Model of CPython `float` applied to a string, restricted to finite
decimal literals: optional surrounding whitespace, optional sign, then
digits with an optional decimal point (at least one digit overall), then
an optional decimal exponent.  Returns `none` exactly when CPython raises
`ValueError` (for inputs inside the modelled fragment). -/
def parseFloat (s : String) : Option ℚ :=
  let (sg, cs) := parseSign (pyStrip s.toList)
  let (d1, r1) := cs.span Char.isDigit
  let (d2, r2) :=
    match r1 with
    | '.' :: rest => rest.span Char.isDigit
    | _ => (([] : List Char), r1)
  if d1.isEmpty && d2.isEmpty then none
  else
    let base : ℚ := (sg : ℚ) * (digitsVal (d1 ++ d2) : ℚ) / (10 : ℚ) ^ d2.length
    match r2 with
    | [] => some base
    | 'e' :: rest => parseExpPart base rest
    | 'E' :: rest => parseExpPart base rest
    | _ => none

/-- `float(x)` where `x` is a form-field value: `None` raises `TypeError`,
a non-numeric string raises `ValueError`. -/
def pyFloat (v : Option String) : Except PyError ℚ :=
  match v with
  | none => Except.error PyError.typeError
  | some s =>
    match parseFloat s with
    | some q => Except.ok q
    | none => Except.error PyError.valueError

/-- `EMISSION_FACTORS` from src/main.py: kg CO2 per unit. -/
def EMISSION_FACTORS : List (String × ℚ) :=
  [("electricity", 233 / 1000),
   ("gasoline", 231 / 100),
   ("natural_gas", 2204 / 1000)]

/-- `ALTERNATIVES` from src/main.py: eco-friendly suggestion per key. -/
def ALTERNATIVES : List (String × String) :=
  [("electricity", "Consider switching to renewable energy sources or using energy-efficient appliances."),
   ("gasoline", "Consider using public transportation or switching to an electric vehicle."),
   ("natural_gas", "Consider improving home insulation or using energy-efficient HVAC systems.")]

/-- Python `d[k]`-style lookup with an `Option String` key (a `None` key
never matches a string-keyed table). -/
def lookupKey (d : List (String × α)) (k : Option String) : Option α :=
  match k with
  | none => none
  | some s => d.lookup s

/-- Python `d.get(k, dflt)` with an `Option String` key. -/
def dictGet (d : List (String × α)) (k : Option String) (dflt : α) : α :=
  (lookupKey d k).getD dflt

/-- The response the `calculate` route hands back to Flask: either render
result.html with the computed values, or flash a message and redirect to
the index form. -/
inductive CalcResponse where
  | resultPage (emissions : ℚ) (alternative : String)
  | redirectIndex (flashMessage : String)
deriving DecidableEq, Repr

/-- The module-level tables of src/main.py, threaded through the handler
so that their immutability is a provable statement. -/
structure AppState where
  emission_factors : List (String × ℚ)
  alternatives : List (String × String)
deriving DecidableEq, Repr

/-- The tables as initialized at module load. -/
def initialState : AppState :=
  ⟨EMISSION_FACTORS, ALTERNATIVES⟩

/-- One POST to /calculate: the two form fields, each possibly absent. -/
structure Request where
  activity_type : Option String
  amount : Option String
deriving DecidableEq, Repr

/-- The `calculate` route handler of src/main.py over explicit state:
try `float(amount)`; on success compute
`EMISSION_FACTORS.get(activity_type, 0) * amount` and the advisory and
render result.html; on `ValueError` flash the fixed parse message, log at
error severity and redirect; on any other exception flash the generic
message, log it with the cause and redirect.  Returns the (unchanged)
state, the response, and the log records emitted. -/
def calculateIn (st : AppState) (activity_type amount_raw : Option String) :
    AppState × CalcResponse × List LogRecord :=
  match pyFloat amount_raw with
  | Except.ok amount =>
      (st,
       CalcResponse.resultPage
         (dictGet st.emission_factors activity_type 0 * amount)
         (dictGet st.alternatives activity_type "No suggestion available."),
       [])
  | Except.error PyError.valueError =>
      (st,
       CalcResponse.redirectIndex "Invalid input. Please enter a numeric value for amount.",
       [⟨Severity.error, "Invalid input for amount; conversion to float failed."⟩])
  | Except.error PyError.typeError =>
      (st,
       CalcResponse.redirectIndex "An error occurred. Please try again.",
       [⟨Severity.error, "An unexpected error occurred: " ++ errorText PyError.typeError⟩])

/-- `estimate` of the spec: the `calculate` handler run against the
module-load tables. -/
def calculate (activity_type amount_raw : Option String) :
    CalcResponse × List LogRecord :=
  (calculateIn initialState activity_type amount_raw).2

/-- The response-and-logs part of handling one request in a given state. -/
def respOf (st : AppState) (r : Request) : CalcResponse × List LogRecord :=
  (calculateIn st r.activity_type r.amount).2

/-- The serving layer dispatching a sequence of requests to the handler,
threading the (potentially mutable) table state through. -/
def runServer : AppState → List Request → List (CalcResponse × List LogRecord)
  | _, [] => []
  | st, r :: rs =>
      let out := calculateIn st r.activity_type r.amount
      out.2 :: runServer out.1 rs

/-- Handling one request never modifies the table state: `calculate` only
reads the dictionaries. -/
theorem calculateIn_fst (st : AppState) (a m : Option String) :
    (calculateIn st a m).1 = st := by
  unfold calculateIn
  rcases pyFloat m with e | q
  · cases e <;> rfl
  · rfl

/-- The server loop is equivalent to mapping the handler over the
requests with the initial table state: no request influences a later
response. -/
theorem runServer_eq_map (st : AppState) (reqs : List Request) :
    runServer st reqs = reqs.map (respOf st) := by
  induction reqs with
  | nil => rfl
  | cons r rs ih =>
      show (calculateIn st r.activity_type r.amount).2 ::
        runServer (calculateIn st r.activity_type r.amount).1 rs = _
      rw [calculateIn_fst, ih]
      rfl

/-- The i-th response of a server run is the handler's response to the
i-th request alone. -/
theorem runServer_getD (st : AppState) (reqs : List Request) (i : Nat) :
    (runServer st reqs).getD i (respOf st ⟨none, none⟩) =
      respOf st (reqs.getD i ⟨none, none⟩) := by
  rw [runServer_eq_map]
  induction reqs generalizing i with
  | nil => rfl
  | cons r rs ih =>
      cases i with
      | zero => rfl
      | succ n => exact ih n

/-- The two tables have the same misses: a key absent from
`EMISSION_FACTORS` is absent from `ALTERNATIVES` and vice versa. -/
theorem alt_lookup_none_iff (k : String) :
    ALTERNATIVES.lookup k = none ↔ EMISSION_FACTORS.lookup k = none := by
  simp only [ALTERNATIVES, EMISSION_FACTORS, List.lookup]
  cases h1 : k == "electricity" <;> cases h2 : k == "gasoline" <;>
    cases h3 : k == "natural_gas" <;> simp

/-- Every coefficient stored in `EMISSION_FACTORS` is strictly positive. -/
theorem factor_pos (k : String) (f : ℚ)
    (h : EMISSION_FACTORS.lookup k = some f) : 0 < f := by
  simp only [EMISSION_FACTORS, List.lookup] at h
  cases h1 : k == "electricity" <;> rw [h1] at h
  · cases h2 : k == "gasoline" <;> rw [h2] at h
    · cases h3 : k == "natural_gas" <;> rw [h3] at h
      · simp at h
      · simp at h; subst h; norm_num
    · simp at h; subst h; norm_num
  · simp at h; subst h; norm_num

/-- No advisory stored in `ALTERNATIVES` equals the fallback string. -/
theorem alt_ne_fallback (k v : String)
    (h : ALTERNATIVES.lookup k = some v) : v ≠ "No suggestion available." := by
  simp only [ALTERNATIVES, List.lookup] at h
  cases h1 : k == "electricity" <;> rw [h1] at h
  · cases h2 : k == "gasoline" <;> rw [h2] at h
    · cases h3 : k == "natural_gas" <;> rw [h3] at h
      · simp at h
      · simp at h; subst h; decide
    · simp at h; subst h; decide
  · simp at h; subst h; decide

/-- `lookupKey` version of `alt_lookup_none_iff`, covering an absent
(`none`) activity_type field as well. -/
theorem lookupKey_alt_none_iff (k : Option String) :
    lookupKey ALTERNATIVES k = none ↔ lookupKey EMISSION_FACTORS k = none := by
  cases k with
  | none => simp [lookupKey]
  | some s => simpa [lookupKey] using alt_lookup_none_iff s

/-- Claim C1: for every known activity-type key (one present in
`EMISSION_FACTORS`, with advisory in `ALTERNATIVES`) and every string
parsing to a non-negative amount, `calculate` succeeds, rendering the
result page with emissions equal to the table coefficient times the
amount (a single multiplication) and the advisory string from the
`ALTERNATIVES` table, and emits no log record. -/
theorem estimate_known_key (k s : String) (f : ℚ) (adv : String) (a : ℚ)
    (hf : EMISSION_FACTORS.lookup k = some f)
    (hadv : ALTERNATIVES.lookup k = some adv)
    (hp : parseFloat s = some a) (_ha : 0 ≤ a) :
    calculate (some k) (some s) = (CalcResponse.resultPage (f * a) adv, []) := by
  simp [calculate, calculateIn, pyFloat, hp, dictGet, lookupKey, initialState, hf, hadv]

unseal Rat.mul Rat.inv in
/-- Witness for C1 at k = "electricity", s = "10". -/
theorem estimate_known_key_witness :
    calculate (some "electricity") (some "10") =
      (CalcResponse.resultPage ((233 / 1000 : ℚ) * 10)
        "Consider switching to renewable energy sources or using energy-efficient appliances.",
       []) :=
  estimate_known_key "electricity" "10" (233 / 1000)
    "Consider switching to renewable energy sources or using energy-efficient appliances." 10
    (by decide) (by decide) (by decide) (by decide)

/-- Claim C2: for every activity-type key and every amount string that does not
parse as a number, `calculate` does not crash: it redirects to the form
carrying exactly the fixed parse-failure message and emits exactly one
error-severity log record. -/
theorem estimate_parse_error (k s : String) (hp : parseFloat s = none) :
    calculate (some k) (some s) =
      (CalcResponse.redirectIndex "Invalid input. Please enter a numeric value for amount.",
       [⟨Severity.error, "Invalid input for amount; conversion to float failed."⟩]) := by
  simp [calculate, calculateIn, pyFloat, hp]

/-- Witness for C2 at the spec's three examples "abc", "" and "1,2". -/
theorem estimate_parse_error_witness :
    calculate (some "electricity") (some "abc") =
      (CalcResponse.redirectIndex "Invalid input. Please enter a numeric value for amount.",
       [⟨Severity.error, "Invalid input for amount; conversion to float failed."⟩]) ∧
    calculate (some "electricity") (some "") =
      (CalcResponse.redirectIndex "Invalid input. Please enter a numeric value for amount.",
       [⟨Severity.error, "Invalid input for amount; conversion to float failed."⟩]) ∧
    calculate (some "gasoline") (some "1,2") =
      (CalcResponse.redirectIndex "Invalid input. Please enter a numeric value for amount.",
       [⟨Severity.error, "Invalid input for amount; conversion to float failed."⟩]) :=
  ⟨estimate_parse_error "electricity" "abc" (by decide),
   estimate_parse_error "electricity" "" (by decide),
   estimate_parse_error "gasoline" "1,2" (by decide)⟩

/-- Claim C3: for every activity-type key absent from `EMISSION_FACTORS` and
every string parsing as a number, `calculate` succeeds (no error path)
with emissions 0 and the fallback advisory. -/
theorem estimate_unknown_key (k s : String) (a : ℚ)
    (hk : EMISSION_FACTORS.lookup k = none)
    (hp : parseFloat s = some a) :
    calculate (some k) (some s) =
      (CalcResponse.resultPage 0 "No suggestion available.", []) := by
  have halt : ALTERNATIVES.lookup k = none := (alt_lookup_none_iff k).2 hk
  simp [calculate, calculateIn, pyFloat, hp, dictGet, lookupKey, initialState, hk, halt]

unseal Rat.mul Rat.inv in
/-- Witness for C3 at k = "solar", s = "10". -/
theorem estimate_unknown_key_witness :
    calculate (some "solar") (some "10") =
      (CalcResponse.resultPage 0 "No suggestion available.", []) :=
  estimate_unknown_key "solar" "10" 10 (by decide) (by decide)

/-- Claim C4: with both form fields present as strings, the generic catch-all
branch is unreachable: every call either renders a result page or takes
the parse-error redirect. -/
theorem only_parse_error_reachable (k s : String) :
    (∃ e adv, (calculate (some k) (some s)).1 = CalcResponse.resultPage e adv) ∨
    (calculate (some k) (some s)).1 =
      CalcResponse.redirectIndex "Invalid input. Please enter a numeric value for amount." := by
  rcases hp : parseFloat s with _ | a
  · right
    simp [calculate, calculateIn, pyFloat, hp]
  · left
    refine ⟨dictGet EMISSION_FACTORS (some k) 0 * a,
      dictGet ALTERNATIVES (some k) "No suggestion available.", ?_⟩
    simp [calculate, calculateIn, pyFloat, hp, initialState]

/-- Witness for C4 at a parsing and a non-parsing input. -/
theorem only_parse_error_reachable_witness :
    ((∃ e adv, (calculate (some "electricity") (some "7")).1 = CalcResponse.resultPage e adv) ∨
      (calculate (some "electricity") (some "7")).1 =
        CalcResponse.redirectIndex "Invalid input. Please enter a numeric value for amount.") ∧
    ((∃ e adv, (calculate (some "electricity") (some "abc")).1 = CalcResponse.resultPage e adv) ∨
      (calculate (some "electricity") (some "abc")).1 =
        CalcResponse.redirectIndex "Invalid input. Please enter a numeric value for amount.") :=
  ⟨only_parse_error_reachable "electricity" "7",
   only_parse_error_reachable "electricity" "abc"⟩

unseal Rat.mul Rat.inv in
/-- Claim C5: the spec's concrete scenarios, exactly: electricity/10 gives
2.33 with the renewable-energy advisory, gasoline/5 gives 11.55 with the
public-transportation advisory, natural_gas/2 gives 4.408 with the
home-insulation advisory, and solar/10 gives 0 with the fallback
advisory. -/
theorem concrete_scenarios :
    calculate (some "electricity") (some "10") =
      (CalcResponse.resultPage (233 / 100)
        "Consider switching to renewable energy sources or using energy-efficient appliances.",
       []) ∧
    calculate (some "gasoline") (some "5") =
      (CalcResponse.resultPage (1155 / 100)
        "Consider using public transportation or switching to an electric vehicle.",
       []) ∧
    calculate (some "natural_gas") (some "2") =
      (CalcResponse.resultPage (4408 / 1000)
        "Consider improving home insulation or using energy-efficient HVAC systems.",
       []) ∧
    calculate (some "solar") (some "10") =
      (CalcResponse.resultPage 0 "No suggestion available.", []) := by
  refine ⟨by decide, by decide, by decide, by decide⟩

/-- Claim C6: for every known activity-type key and every string parsing to a
negative amount, `calculate` accepts the input without complaint (success
result, no log record, no clamping) and the emissions value is the
negative number f * a. -/
theorem estimate_negative_amount (k s : String) (f : ℚ) (adv : String) (a : ℚ)
    (hf : EMISSION_FACTORS.lookup k = some f)
    (hadv : ALTERNATIVES.lookup k = some adv)
    (hp : parseFloat s = some a) (ha : a < 0) :
    calculate (some k) (some s) = (CalcResponse.resultPage (f * a) adv, []) ∧
      f * a < 0 := by
  refine ⟨?_, mul_neg_of_pos_of_neg (factor_pos k f hf) ha⟩
  simp [calculate, calculateIn, pyFloat, hp, dictGet, lookupKey, initialState, hf, hadv]

unseal Rat.mul Rat.inv in
/-- Witness for C6 at k = "electricity", s = "-10". -/
theorem estimate_negative_amount_witness :
    (calculate (some "electricity") (some "-10") =
      (CalcResponse.resultPage ((233 / 1000 : ℚ) * (-10))
        "Consider switching to renewable energy sources or using energy-efficient appliances.",
       []) ∧
     (233 / 1000 : ℚ) * (-10) < 0) :=
  estimate_negative_amount "electricity" "-10" (233 / 1000)
    "Consider switching to renewable energy sources or using energy-efficient appliances." (-10)
    (by decide) (by decide) (by decide) (by decide)

/-- Claim C7: the estimator is deterministic and stateless: a server run maps
the handler independently over the requests, and two requests with
identical form fields receive identical responses (same outcome, same
emissions, same advisory or message), wherever they occur in the run. -/
theorem estimate_stateless (st : AppState) (reqs : List Request) (i j : Nat)
    (hij : reqs.getD i ⟨none, none⟩ = reqs.getD j ⟨none, none⟩) :
    runServer st reqs = reqs.map (respOf st) ∧
    (runServer st reqs).getD i (respOf st ⟨none, none⟩) =
      (runServer st reqs).getD j (respOf st ⟨none, none⟩) := by
  refine ⟨runServer_eq_map st reqs, ?_⟩
  rw [runServer_getD, runServer_getD, hij]

/-- Witness for C7: two identical requests in one run, at positions 0
and 1. -/
theorem estimate_stateless_witness :
    runServer initialState
        [⟨some "electricity", some "10"⟩, ⟨some "electricity", some "10"⟩] =
      [⟨some "electricity", some "10"⟩, ⟨some "electricity", some "10"⟩].map
        (respOf initialState) ∧
    (runServer initialState
        [⟨some "electricity", some "10"⟩, ⟨some "electricity", some "10"⟩]).getD 0
        (respOf initialState ⟨none, none⟩) =
      (runServer initialState
        [⟨some "electricity", some "10"⟩, ⟨some "electricity", some "10"⟩]).getD 1
        (respOf initialState ⟨none, none⟩) :=
  estimate_stateless initialState
    [⟨some "electricity", some "10"⟩, ⟨some "electricity", some "10"⟩] 0 1 rfl

/-- Claim C8: `EMISSION_FACTORS` maps exactly the keys electricity, gasoline,
natural_gas, each to a strictly positive coefficient, and handling a
request never modifies either table. -/
theorem emission_tables_invariant :
    EMISSION_FACTORS.map Prod.fst = ["electricity", "gasoline", "natural_gas"] ∧
    (∀ p ∈ EMISSION_FACTORS, 0 < p.2) ∧
    (∀ (st : AppState) (a m : Option String), (calculateIn st a m).1 = st) := by
  refine ⟨rfl, ?_, fun st a m => calculateIn_fst st a m⟩
  intro p hp
  simp only [EMISSION_FACTORS, List.mem_cons, List.not_mem_nil, or_false] at hp
  rcases hp with h | h | h <;> subst h <;> norm_num

/-- Witness for C8: positivity at the electricity entry and state
preservation at one concrete call. -/
theorem emission_tables_invariant_witness :
    (0 : ℚ) < (("electricity", (233 / 1000 : ℚ))).2 ∧
    (calculateIn initialState (some "electricity") (some "10")).1 = initialState :=
  ⟨emission_tables_invariant.2.1 ("electricity", 233 / 1000) (by simp [EMISSION_FACTORS]),
   emission_tables_invariant.2.2 initialState (some "electricity") (some "10")⟩

/-- Claim C9: if the amount form field is absent (`None` rather than a
string), `float(None)` raises `TypeError`, not `ValueError`, so the call
takes the generic catch-all path: the user sees the generic message, not
the parse-error message, and one error-severity record is logged. -/
theorem missing_amount_generic_error (k : Option String) :
    calculate k none =
      (CalcResponse.redirectIndex "An error occurred. Please try again.",
       [⟨Severity.error, "An unexpected error occurred: " ++ errorText PyError.typeError⟩]) :=
  rfl

/-- Witness for C9 at k = "electricity". -/
theorem missing_amount_generic_error_witness :
    calculate (some "electricity") none =
      (CalcResponse.redirectIndex "An error occurred. Please try again.",
       [⟨Severity.error, "An unexpected error occurred: " ++ errorText PyError.typeError⟩]) :=
  missing_amount_generic_error (some "electricity")

/-- Claim C10: the two tables have exactly the same key list; on any
successful call the advisory is the fallback string exactly when the
coefficient lookup missed (took the 0 default); and a missing or unknown
activity_type — including an absent field — yields exactly the
zero-emissions, fallback-advisory success result. -/
theorem advisory_fallback_iff_zero_default (k : Option String) (s : String) (a : ℚ)
    (hp : parseFloat s = some a) :
    ALTERNATIVES.map Prod.fst = EMISSION_FACTORS.map Prod.fst ∧
    (∀ e adv, (calculate k (some s)).1 = CalcResponse.resultPage e adv →
      (adv = "No suggestion available." ↔ lookupKey EMISSION_FACTORS k = none)) ∧
    (lookupKey EMISSION_FACTORS k = none →
      calculate k (some s) = (CalcResponse.resultPage 0 "No suggestion available.", [])) := by
  refine ⟨rfl, ?_, ?_⟩
  · intro e adv h
    have hadv : adv = dictGet ALTERNATIVES k "No suggestion available." := by
      simp [calculate, calculateIn, pyFloat, hp, initialState] at h
      exact h.2.symm
    subst hadv
    rcases halt : lookupKey ALTERNATIVES k with _ | v
    · simp [dictGet, halt, (lookupKey_alt_none_iff k).1 halt]
    · have hfac : lookupKey EMISSION_FACTORS k ≠ none := by
        intro hz
        rw [(lookupKey_alt_none_iff k).2 hz] at halt
        exact Option.noConfusion halt
      have hv : v ≠ "No suggestion available." := by
        cases k with
        | none => exact Option.noConfusion halt
        | some k0 => exact alt_ne_fallback k0 v halt
      simp [dictGet, halt, hv, hfac]
  · intro hk
    have halt : lookupKey ALTERNATIVES k = none := (lookupKey_alt_none_iff k).2 hk
    simp [calculate, calculateIn, pyFloat, hp, dictGet, initialState, hk, halt]

unseal Rat.mul Rat.inv in
/-- Witness for C10 at an absent activity_type field and s = "1". -/
theorem advisory_fallback_iff_zero_default_witness :
    ALTERNATIVES.map Prod.fst = EMISSION_FACTORS.map Prod.fst ∧
    (∀ e adv, (calculate none (some "1")).1 = CalcResponse.resultPage e adv →
      (adv = "No suggestion available." ↔ lookupKey EMISSION_FACTORS none = none)) ∧
    (lookupKey EMISSION_FACTORS none = none →
      calculate none (some "1") = (CalcResponse.resultPage 0 "No suggestion available.", [])) :=
  advisory_fallback_iff_zero_default none "1" 1 (by decide)

